import Mathlib

/-!
Verification of the alert-state and polling-cycle engine of the http-monitor
repository (src/main.go). Times and durations are modelled as integers
(Go `time.Duration` is an int64 nanosecond count; `time.Time` instants are
modelled by their integer value, with 0 playing the role of Go's zero time,
which `time.Time.IsZero` reports). Probe outcomes are supplied as data, so
the network call of `monitorOnce` becomes an input of the model.
-/

/-- The per-URL last-alert table `lastAlert : map[string]time.Time`
(src/main.go line 87), modelled as an association list from URL to the
stored instant. An absent key is Go's missing map entry. -/
abbrev AlertStore := List (String × Int)

/-- Reading `lastAlert[url]`: `none` models `ok = false` of the two-valued
map read in `canSendAlert` (src/main.go line 210). -/
def lookupAlert (store : AlertStore) (url : String) : Option Int :=
  match store with
  | [] => none
  | (k, v) :: rest => if k = url then some v else lookupAlert rest url

/-- `canSendAlert(url, cooldown)` (src/main.go lines 203-215), with the
implicit `time.Now()` made an explicit argument `now`; `time.Since(last)`
is `now - last`, and `last.IsZero()` is `last = 0`. -/
def canSendAlert (store : AlertStore) (url : String) (cooldown now : Int) : Bool :=
  if cooldown ≤ 0 then true
  else
    match lookupAlert store url with
    | none => true
    | some last =>
      if last = 0 then true
      else decide (now - last ≥ cooldown)

/-- `recordAlert(url)` (src/main.go lines 217-221): `lastAlert[url] = time.Now()`,
with `time.Now()` the explicit argument `now`. -/
def recordAlert (store : AlertStore) (url : String) (now : Int) : AlertStore :=
  match store with
  | [] => [(url, now)]
  | (k, v) :: rest =>
    if k = url then (url, now) :: rest else (k, v) :: recordAlert rest url now

/-- `resetAlert(url)` (src/main.go lines 223-227): `delete(lastAlert, url)`. -/
def resetAlert (store : AlertStore) (url : String) : AlertStore :=
  match store with
  | [] => []
  | (k, v) :: rest =>
    if k = url then resetAlert rest url else (k, v) :: resetAlert rest url

/-- `AlertPolicy` (src/main.go lines 72-75). -/
structure AlertPolicy where
  cooldown : Int
  latencyThreshold : Int
deriving DecidableEq, Repr

/-- The result of one `client.Get(u)` in `monitorOnce` (src/main.go line 149):
either a transport error carrying `err.Error()`, or a response carrying
`resp.StatusCode`. -/
inductive ProbeResult where
  | failure (msg : String)
  | response (code : Int)
deriving DecidableEq, Repr

/-- The classification data `monitorOnce` computes for one URL
(src/main.go lines 152-182): final `status`, `detail`, `alertNeeded`
and `alertReason`. -/
structure Outcome where
  status : String
  detail : String
  alertNeeded : Bool
  alertReason : String
deriving DecidableEq, Repr

/-- The classification part of the `monitorOnce` loop body
(src/main.go lines 152-182), as a function of the probe result, the measured
latency and `policy.LatencyThreshold`. The Go code first sets status/detail
from the error or status code, then rewrites status to SLOW when the latency
threshold is enabled, the status is still OK and the latency strictly exceeds
the threshold, and finally marks `alertNeeded` when the (possibly rewritten)
status is ERROR. -/
def classifyOutcome (probe : ProbeResult) (latency latencyThreshold : Int) : Outcome :=
  let sd : String × String :=
    match probe with
    | ProbeResult.failure msg => ("ERROR", msg)
    | ProbeResult.response code =>
      if code < 200 ∨ 300 ≤ code then
        ("ERROR", "HTTP 状态码: " ++ toString code)
      else
        ("OK", "HTTP " ++ toString code ++ ", 耗时 " ++ toString latency)
  let slow : Bool :=
    decide (0 < latencyThreshold) && (sd.1 == "OK") && decide (latencyThreshold < latency)
  let status := if slow then "SLOW" else sd.1
  let alertReason :=
    if slow then "响应耗时 " ++ toString latency ++ " 超过阈值 " ++ toString latencyThreshold
    else sd.2
  ⟨status, sd.2, slow || (status == "ERROR"), alertReason⟩

/-- One observation of one URL: the instant `time.Now()` of the probe, the
probe result, the measured latency, and whether the Feishu webhook delivery
would succeed if attempted (the outcome of `sendFeishuCard`, which is an
external call). -/
structure Event where
  now : Int
  probe : ProbeResult
  latency : Int
  deliveryOK : Bool
deriving DecidableEq, Repr

/-- What one iteration of the `monitorOnce` loop body did: the updated
store, whether `sendFeishuCard` was invoked (`attempted`), whether it was
invoked and succeeded (`sent`), and the `detail` string that was passed to
`sendFeishuCard` when it was invoked. -/
structure StepResult where
  store : AlertStore
  attempted : Bool
  sent : Bool
  message : Option String
deriving DecidableEq, Repr

/-- The alert-handling part of the `monitorOnce` loop body for one URL
(src/main.go lines 184-199): when the outcome is alert-worthy and
`webhook != "" && canSendAlert(u, policy.Cooldown)`, the notification is
attempted with `alertReason` as its detail; `recordAlert` runs exactly when
delivery succeeded; otherwise (a Healthy outcome) `resetAlert` runs. -/
def stepURL (policy : AlertPolicy) (webhook : String) (store : AlertStore)
    (url : String) (e : Event) : StepResult :=
  let out := classifyOutcome e.probe e.latency policy.latencyThreshold
  if out.alertNeeded then
    if webhook ≠ "" ∧ canSendAlert store url policy.cooldown e.now = true then
      if e.deliveryOK then
        ⟨recordAlert store url e.now, true, true, some out.alertReason⟩
      else
        ⟨store, true, false, some out.alertReason⟩
    else
      ⟨store, false, false, none⟩
  else
    ⟨resetAlert store url, false, false, none⟩

/-- `monitorOnce` (src/main.go lines 142-201): one full cycle over the
configured URLs, each paired with its observation for this cycle. Returns
the final store and, per URL in order, whether a notification was sent.
The Go loop never exits early, which the one-flag-per-URL result records. -/
def monitorOnce (policy : AlertPolicy) (webhook : String) :
    AlertStore → List (String × Event) → AlertStore × List Bool
  | s, [] => (s, [])
  | s, (u, e) :: rest =>
    let r := stepURL policy webhook s u e
    let p := monitorOnce policy webhook r.store rest
    (p.1, r.sent :: p.2)

/-- The observations of a single URL across successive cycles, folded through
`stepURL`: final store, paired with whether any notification was attempted
anywhere in the trace. -/
def runTrace (policy : AlertPolicy) (webhook url : String) :
    AlertStore → List Event → AlertStore × Bool
  | s, [] => (s, false)
  | s, e :: es =>
    let r := stepURL policy webhook s url e
    let p := runTrace policy webhook url r.store es
    (p.1, r.attempted || p.2)

/-- The startup check `len(urls) == 0` of `main` (src/main.go lines 394-397),
which exits the process before `runMonitorLoop` ever starts. -/
def startupFatal (urls : List String) : Bool := urls.length == 0

/-! ### Helper lemmas about the alert-state operations -/

theorem lookupAlert_recordAlert_self (s : AlertStore) (u : String) (t : Int) :
    lookupAlert (recordAlert s u t) u = some t := by
  induction s with
  | nil => simp [recordAlert, lookupAlert]
  | cons kv rest ih =>
    obtain ⟨k, v⟩ := kv
    by_cases h : k = u
    · simp [recordAlert, h, lookupAlert]
    · simp [recordAlert, h, lookupAlert, ih]

theorem lookupAlert_recordAlert_ne (s : AlertStore) (u v : String) (t : Int)
    (hvu : v ≠ u) : lookupAlert (recordAlert s u t) v = lookupAlert s v := by
  induction s with
  | nil => simp [recordAlert, lookupAlert, Ne.symm hvu]
  | cons kv rest ih =>
    obtain ⟨k, w⟩ := kv
    by_cases h : k = u
    · subst h
      simp [recordAlert, lookupAlert, Ne.symm hvu]
    · simp [recordAlert, h, lookupAlert, ih]

theorem lookupAlert_resetAlert_self (s : AlertStore) (u : String) :
    lookupAlert (resetAlert s u) u = none := by
  induction s with
  | nil => simp [resetAlert, lookupAlert]
  | cons kv rest ih =>
    obtain ⟨k, v⟩ := kv
    by_cases h : k = u
    · simp [resetAlert, h, ih]
    · simp [resetAlert, h, lookupAlert, ih]

theorem lookupAlert_resetAlert_ne (s : AlertStore) (u v : String)
    (hvu : v ≠ u) : lookupAlert (resetAlert s u) v = lookupAlert s v := by
  induction s with
  | nil => simp [resetAlert]
  | cons kv rest ih =>
    obtain ⟨k, w⟩ := kv
    by_cases h : k = u
    · subst h
      simp [resetAlert, lookupAlert, Ne.symm hvu, ih]
    · simp [resetAlert, h, lookupAlert, ih]

theorem canSendAlert_of_lookup_none (s : AlertStore) (u : String) (c n : Int)
    (h : lookupAlert s u = none) : canSendAlert s u c n = true := by
  unfold canSendAlert
  by_cases hc : c ≤ 0 <;> simp [hc, h]

theorem canSendAlert_after_reset (s : AlertStore) (u : String) (c n : Int) :
    canSendAlert (resetAlert s u) u c n = true :=
  canSendAlert_of_lookup_none _ _ _ _ (lookupAlert_resetAlert_self s u)

theorem canSendAlert_false_in_window (s : AlertStore) (u : String) (c n T : Int)
    (hs : lookupAlert s u = some T) (hT : T ≠ 0) (hC : 0 < c) (hw : n - T < c) :
    canSendAlert s u c n = false := by
  unfold canSendAlert
  simp [not_le.mpr hC, hs, hT, not_le.mpr hw]

theorem classifyOutcome_failure (latency threshold : Int) (msg : String) :
    classifyOutcome (ProbeResult.failure msg) latency threshold =
      ⟨"ERROR", msg, true, msg⟩ := by
  simp [classifyOutcome]

theorem classifyOutcome_badcode (latency threshold code : Int)
    (h : code < 200 ∨ 300 ≤ code) :
    classifyOutcome (ProbeResult.response code) latency threshold =
      ⟨"ERROR", "HTTP 状态码: " ++ toString code, true,
        "HTTP 状态码: " ++ toString code⟩ := by
  simp [classifyOutcome, h]

theorem classifyOutcome_slow (latency threshold code : Int)
    (h1 : 200 ≤ code) (h2 : code < 300)
    (h3 : 0 < threshold) (h4 : threshold < latency) :
    classifyOutcome (ProbeResult.response code) latency threshold =
      ⟨"SLOW", "HTTP " ++ toString code ++ ", 耗时 " ++ toString latency, true,
        "响应耗时 " ++ toString latency ++ " 超过阈值 " ++ toString threshold⟩ := by
  simp [classifyOutcome, not_lt.mpr h1, not_le.mpr h2, h3, h4]

theorem classifyOutcome_ok (latency threshold code : Int)
    (h1 : 200 ≤ code) (h2 : code < 300)
    (hn : ¬(0 < threshold ∧ threshold < latency)) :
    classifyOutcome (ProbeResult.response code) latency threshold =
      ⟨"OK", "HTTP " ++ toString code ++ ", 耗时 " ++ toString latency, false,
        "HTTP " ++ toString code ++ ", 耗时 " ++ toString latency⟩ := by
  push_neg at hn
  by_cases hth : 0 < threshold
  · simp [classifyOutcome, not_lt.mpr h1, not_le.mpr h2, hth, not_lt.mpr (hn hth)]
  · simp [classifyOutcome, not_lt.mpr h1, not_le.mpr h2, hth]

theorem stepURL_healthy (policy : AlertPolicy) (webhook : String)
    (s : AlertStore) (u : String) (e : Event)
    (h : (classifyOutcome e.probe e.latency policy.latencyThreshold).alertNeeded = false) :
    stepURL policy webhook s u e = ⟨resetAlert s u, false, false, none⟩ := by
  simp [stepURL, h]

theorem stepURL_blocked (policy : AlertPolicy) (webhook : String)
    (s : AlertStore) (u : String) (e : Event)
    (h : (classifyOutcome e.probe e.latency policy.latencyThreshold).alertNeeded = true)
    (hb : ¬(webhook ≠ "" ∧ canSendAlert s u policy.cooldown e.now = true)) :
    stepURL policy webhook s u e = ⟨s, false, false, none⟩ := by
  simp only [stepURL, h, if_true, if_neg hb]

theorem stepURL_sendOK (policy : AlertPolicy) (webhook : String)
    (s : AlertStore) (u : String) (e : Event)
    (h : (classifyOutcome e.probe e.latency policy.latencyThreshold).alertNeeded = true)
    (hwh : webhook ≠ "") (hcan : canSendAlert s u policy.cooldown e.now = true)
    (hd : e.deliveryOK = true) :
    stepURL policy webhook s u e =
      ⟨recordAlert s u e.now, true, true,
        some (classifyOutcome e.probe e.latency policy.latencyThreshold).alertReason⟩ := by
  simp [stepURL, h, hwh, hcan, hd]

theorem stepURL_sendFail (policy : AlertPolicy) (webhook : String)
    (s : AlertStore) (u : String) (e : Event)
    (h : (classifyOutcome e.probe e.latency policy.latencyThreshold).alertNeeded = true)
    (hwh : webhook ≠ "") (hcan : canSendAlert s u policy.cooldown e.now = true)
    (hd : e.deliveryOK = false) :
    stepURL policy webhook s u e =
      ⟨s, true, false,
        some (classifyOutcome e.probe e.latency policy.latencyThreshold).alertReason⟩ := by
  simp [stepURL, h, hwh, hcan, hd]

/-! ### Claim theorems -/

/-- Claim C2: `canSendAlert` returns true iff the cooldown is non-positive,
or no prior alert is recorded for the URL (no map entry, or Go's zero-value
`time.Time` — which `recordAlert` never stores, since `time.Now()` is never
the zero instant), or the elapsed time `now - lastAlertAt` is at least the
cooldown; it returns false otherwise. -/
theorem canSendAlert_true_iff (s : AlertStore) (u : String) (c n : Int) :
    canSendAlert s u c n = true ↔
      c ≤ 0 ∨ lookupAlert s u = none ∨ lookupAlert s u = some 0 ∨
        ∃ t, lookupAlert s u = some t ∧ n - t ≥ c := by
  unfold canSendAlert
  by_cases hc : c ≤ 0
  · simp [hc]
  · cases h : lookupAlert s u with
    | none => simp [hc, h]
    | some t =>
      by_cases ht : t = 0
      · subst ht
        simp [hc, h]
      · simp [hc, h, ht]

/-- Claim C10: the alert-state operations act only on the URL they are
given: `recordAlert u` and `resetAlert u` leave the entry stored for every
other URL unchanged. (`canSendAlert` is embedded as a function
`AlertStore → String → Int → Int → Bool` that returns the store unchanged
by construction: the Go function only reads the map under the mutex.) -/
theorem alert_ops_frame (s : AlertStore) (u v : String) (t : Int)
    (hvu : v ≠ u) :
    lookupAlert (recordAlert s u t) v = lookupAlert s v ∧
      lookupAlert (resetAlert s u) v = lookupAlert s v :=
  ⟨lookupAlert_recordAlert_ne s u v t hvu, lookupAlert_resetAlert_ne s u v hvu⟩

/-- Witness for C10 at a concrete store: recording an alert for url "a" and
resetting url "a" both leave url "b"'s stored instant untouched. -/
theorem alert_ops_frame_witness :
    lookupAlert (recordAlert [("b", 3)] "a" 7) "b" = lookupAlert [("b", 3)] "b" ∧
      lookupAlert (resetAlert [("b", 3)] "a") "b" = lookupAlert [("b", 3)] "b" :=
  alert_ops_frame [("b", 3)] "a" "b" 7 (by decide)

/-- Claim C3: classification of one probe outcome follows the priority
order of `monitorOnce`: a transport failure yields ERROR with the error
message as detail; a response outside [200,300) yields ERROR with the code
in the detail; a response inside [200,300) with the threshold enabled and
latency strictly above it yields SLOW; anything else yields OK (Healthy).
The threshold comparison is strict: latency equal to the threshold is OK,
which the fourth case covers since its guard is the negation of the strict
inequality. -/
theorem classify_priority (latency threshold : Int) :
    (∀ msg, classifyOutcome (ProbeResult.failure msg) latency threshold =
        ⟨"ERROR", msg, true, msg⟩) ∧
    (∀ code, code < 200 ∨ 300 ≤ code →
        classifyOutcome (ProbeResult.response code) latency threshold =
          ⟨"ERROR", "HTTP 状态码: " ++ toString code, true,
            "HTTP 状态码: " ++ toString code⟩) ∧
    (∀ code, 200 ≤ code → code < 300 → 0 < threshold → threshold < latency →
        classifyOutcome (ProbeResult.response code) latency threshold =
          ⟨"SLOW", "HTTP " ++ toString code ++ ", 耗时 " ++ toString latency, true,
            "响应耗时 " ++ toString latency ++ " 超过阈值 " ++ toString threshold⟩) ∧
    (∀ code, 200 ≤ code → code < 300 → ¬(0 < threshold ∧ threshold < latency) →
        classifyOutcome (ProbeResult.response code) latency threshold =
          ⟨"OK", "HTTP " ++ toString code ++ ", 耗时 " ++ toString latency, false,
            "HTTP " ++ toString code ++ ", 耗时 " ++ toString latency⟩) :=
  ⟨fun msg => classifyOutcome_failure latency threshold msg,
   fun code h => classifyOutcome_badcode latency threshold code h,
   fun code h1 h2 h3 h4 => classifyOutcome_slow latency threshold code h1 h2 h3 h4,
   fun code h1 h2 hn => classifyOutcome_ok latency threshold code h1 h2 hn⟩

/-- Witness for C3 at concrete inputs, one per case, with the boundary
latency = threshold landing in the OK case (strict comparison). -/
theorem classify_priority_witness :
    classifyOutcome (ProbeResult.failure "connection refused") 5 0 =
        ⟨"ERROR", "connection refused", true, "connection refused"⟩ ∧
    classifyOutcome (ProbeResult.response 500) 50 0 =
        ⟨"ERROR", "HTTP 状态码: " ++ toString (500 : Int), true,
          "HTTP 状态码: " ++ toString (500 : Int)⟩ ∧
    classifyOutcome (ProbeResult.response 200) 800 500 =
        ⟨"SLOW", "HTTP " ++ toString (200 : Int) ++ ", 耗时 " ++ toString (800 : Int), true,
          "响应耗时 " ++ toString (800 : Int) ++ " 超过阈值 " ++ toString (500 : Int)⟩ ∧
    classifyOutcome (ProbeResult.response 200) 500 500 =
        ⟨"OK", "HTTP " ++ toString (200 : Int) ++ ", 耗时 " ++ toString (500 : Int), false,
          "HTTP " ++ toString (200 : Int) ++ ", 耗时 " ++ toString (500 : Int)⟩ :=
  ⟨(classify_priority 5 0).1 "connection refused",
   (classify_priority 50 0).2.1 500 (by decide),
   (classify_priority 800 500).2.2.1 200 (by decide) (by decide) (by decide) (by decide),
   (classify_priority 500 500).2.2.2 200 (by decide) (by decide) (by decide)⟩

/-- Claim C7: when a response arrives with code in [200,300), the latency
threshold enabled and latency strictly above the threshold, the outcome is
SLOW, and the detail that `monitorOnce` delivers with the notification —
`alertReason`, passed as the `detail` argument of `sendFeishuCard`
(src/main.go line 189) and recorded here in `StepResult.message` — states
the measured latency and the threshold. -/
theorem slow_outcome_detail (policy : AlertPolicy) (webhook : String)
    (s : AlertStore) (u : String) (e : Event) (code : Int)
    (hp : e.probe = ProbeResult.response code)
    (h1 : 200 ≤ code) (h2 : code < 300)
    (h3 : 0 < policy.latencyThreshold) (h4 : policy.latencyThreshold < e.latency)
    (hwh : webhook ≠ "") (hcan : canSendAlert s u policy.cooldown e.now = true) :
    (classifyOutcome e.probe e.latency policy.latencyThreshold).status = "SLOW" ∧
      (stepURL policy webhook s u e).message =
        some ("响应耗时 " ++ toString e.latency ++ " 超过阈值 " ++
          toString policy.latencyThreshold) := by
  have hc : classifyOutcome e.probe e.latency policy.latencyThreshold =
      ⟨"SLOW", "HTTP " ++ toString code ++ ", 耗时 " ++ toString e.latency, true,
        "响应耗时 " ++ toString e.latency ++ " 超过阈值 " ++
          toString policy.latencyThreshold⟩ := by
    rw [hp]
    exact classifyOutcome_slow e.latency policy.latencyThreshold code h1 h2 h3 h4
  refine ⟨by rw [hc], ?_⟩
  cases hd : e.deliveryOK
  · rw [stepURL_sendFail policy webhook s u e (by rw [hc]) hwh hcan hd, hc]
  · rw [stepURL_sendOK policy webhook s u e (by rw [hc]) hwh hcan hd, hc]

theorem runTrace_no_attempt_in_window (policy : AlertPolicy) (webhook url : String)
    (T : Int) (hC : 0 < policy.cooldown) (hT : T ≠ 0) :
    ∀ (es : List Event) (s : AlertStore), lookupAlert s url = some T →
      (∀ e ∈ es,
        (classifyOutcome e.probe e.latency policy.latencyThreshold).alertNeeded = true ∧
          e.now - T < policy.cooldown) →
      (runTrace policy webhook url s es).2 = false ∧
        lookupAlert (runTrace policy webhook url s es).1 url = some T := by
  intro es
  induction es with
  | nil => exact fun s hs _ => ⟨rfl, hs⟩
  | cons e es ih =>
    intro s hs hall
    have he := hall e (List.mem_cons_self e es)
    have hcan : canSendAlert s url policy.cooldown e.now = false :=
      canSendAlert_false_in_window s url policy.cooldown e.now T hs hT hC he.2
    have hstep : stepURL policy webhook s url e = ⟨s, false, false, none⟩ :=
      stepURL_blocked policy webhook s url e he.1 (by simp [hcan])
    have ih2 := ih s hs (fun x hx => hall x (List.mem_cons_of_mem e hx))
    simpa [runTrace, hstep] using ih2

theorem runTrace_healthy_aux (policy : AlertPolicy) (webhook url : String) :
    ∀ (es : List Event) (s : AlertStore),
      (∀ e ∈ es,
        (classifyOutcome e.probe e.latency policy.latencyThreshold).alertNeeded = false) →
      (runTrace policy webhook url s es).2 = false ∧
        (es ≠ [] → lookupAlert (runTrace policy webhook url s es).1 url = none) := by
  intro es
  induction es with
  | nil => exact fun s _ => ⟨rfl, fun h => absurd rfl h⟩
  | cons e es ih =>
    intro s hall
    have he := hall e (List.mem_cons_self e es)
    have hstep := stepURL_healthy policy webhook s url e he
    have ih2 := ih (resetAlert s url) (fun x hx => hall x (List.mem_cons_of_mem e hx))
    cases es with
    | nil => simp [runTrace, hstep, lookupAlert_resetAlert_self]
    | cons e2 es2 =>
      refine ⟨?_, fun _ => ?_⟩
      · simpa [runTrace, hstep] using ih2.1
      · simpa [runTrace, hstep] using ih2.2 (by simp)

/-- Claim C1: once an alert for a URL is on record at instant T (which is
what a successful notification leaves behind) and the cooldown C is
positive, a run over any further observations of that URL that are all
alert-worthy (no Healthy observation in between) and all within the window
`now - T < C` attempts no notification at all and leaves the recorded
instant untouched; and after any Healthy observation (`resetAlert`),
`canSendAlert` permits the next notification immediately, at any instant
and for any cooldown. -/
theorem cooldown_invariant (policy : AlertPolicy) (webhook url : String)
    (s : AlertStore) (T : Int) (es : List Event)
    (hC : 0 < policy.cooldown) (hT : T ≠ 0)
    (hs : lookupAlert s url = some T)
    (hall : ∀ e ∈ es,
      (classifyOutcome e.probe e.latency policy.latencyThreshold).alertNeeded = true ∧
        e.now - T < policy.cooldown) :
    (runTrace policy webhook url s es).2 = false ∧
      lookupAlert (runTrace policy webhook url s es).1 url = some T ∧
      ∀ (s2 : AlertStore) (c n : Int), canSendAlert (resetAlert s2 url) url c n = true :=
  have h := runTrace_no_attempt_in_window policy webhook url T hC hT es s hs hall
  ⟨h.1, h.2, fun s2 c n => canSendAlert_after_reset s2 url c n⟩

/-- Witness for C1: after an alert recorded at T = 100 with cooldown 60, an
error observation at instant 130 (within the window) triggers no attempt
and keeps lastAlertAt = 100. -/
theorem cooldown_invariant_witness :
    (runTrace ⟨60, 0⟩ "hook" "u" [("u", 100)]
        [⟨130, ProbeResult.response 500, 5, true⟩]).2 = false ∧
      lookupAlert (runTrace ⟨60, 0⟩ "hook" "u" [("u", 100)]
        [⟨130, ProbeResult.response 500, 5, true⟩]).1 "u" = some 100 :=
  have h := cooldown_invariant ⟨60, 0⟩ "hook" "u" [("u", 100)] 100
    [⟨130, ProbeResult.response 500, 5, true⟩] (by decide) (by decide) (by decide)
    (by decide)
  ⟨h.1, h.2.1⟩

/-- Claim C4: a Healthy observation unconditionally runs `resetAlert`,
which removes the URL's entry from the store entirely (`lookupAlert`
returns `none` afterwards, never a zeroed timestamp), for every store —
in particular regardless of how much of the cooldown has elapsed; and a
run over one or more Healthy observations attempts no notification and
ends with the entry removed. (The operations are total Lean functions, so
no observation can fail.) -/
theorem healthy_clears_state (policy : AlertPolicy) (webhook url : String)
    (s : AlertStore) (e : Event) (es : List Event)
    (he : (classifyOutcome e.probe e.latency policy.latencyThreshold).alertNeeded = false)
    (hall : ∀ x ∈ es,
      (classifyOutcome x.probe x.latency policy.latencyThreshold).alertNeeded = false) :
    stepURL policy webhook s url e = ⟨resetAlert s url, false, false, none⟩ ∧
      lookupAlert (resetAlert s url) url = none ∧
      (runTrace policy webhook url s (e :: es)).2 = false ∧
      lookupAlert (runTrace policy webhook url s (e :: es)).1 url = none := by
  have hcons : ∀ x ∈ e :: es,
      (classifyOutcome x.probe x.latency policy.latencyThreshold).alertNeeded = false := by
    intro x hx
    rcases List.mem_cons.mp hx with h | h
    · subst h; exact he
    · exact hall x h
  have h := runTrace_healthy_aux policy webhook url (e :: es) s hcons
  exact ⟨stepURL_healthy policy webhook s url e he,
    lookupAlert_resetAlert_self s url, h.1, h.2 (by simp)⟩

/-- Witness for C4: a Healthy observation (HTTP 200, threshold disabled)
on a store holding a fresh alert record clears the entry entirely and
attempts nothing; a second Healthy observation keeps it cleared. -/
theorem healthy_clears_state_witness :
    stepURL ⟨60, 0⟩ "hook" [("u", 100)] "u" ⟨101, ProbeResult.response 200, 5, true⟩ =
        ⟨resetAlert [("u", 100)] "u", false, false, none⟩ ∧
      lookupAlert (resetAlert [("u", 100)] "u") "u" = none ∧
      (runTrace ⟨60, 0⟩ "hook" "u" [("u", 100)]
        [⟨101, ProbeResult.response 200, 5, true⟩,
         ⟨102, ProbeResult.response 204, 5, true⟩]).2 = false ∧
      lookupAlert (runTrace ⟨60, 0⟩ "hook" "u" [("u", 100)]
        [⟨101, ProbeResult.response 200, 5, true⟩,
         ⟨102, ProbeResult.response 204, 5, true⟩]).1 "u" = none :=
  healthy_clears_state ⟨60, 0⟩ "hook" "u" [("u", 100)]
    ⟨101, ProbeResult.response 200, 5, true⟩
    [⟨102, ProbeResult.response 204, 5, true⟩] (by decide) (by decide)

/-- Witness for C7: a 200 response taking 800 while the threshold is 500
yields SLOW and a notification detail stating both numbers. -/
theorem slow_outcome_detail_witness :
    (classifyOutcome (ProbeResult.response 200) 800 500).status = "SLOW" ∧
      (stepURL ⟨60, 500⟩ "hook" [] "u" ⟨9, ProbeResult.response 200, 800, true⟩).message =
        some ("响应耗时 " ++ toString (800 : Int) ++ " 超过阈值 " ++ toString (500 : Int)) :=
  slow_outcome_detail ⟨60, 500⟩ "hook" [] "u" ⟨9, ProbeResult.response 200, 800, true⟩ 200
    rfl (by decide) (by decide) (by decide) (by decide) (by decide) (by decide)

/-- Claim C5: when the outcome is alert-worthy, the webhook is configured,
the cooldown permits, and delivery fails, the loop body leaves the store
exactly as it was (`recordAlert` is not called, no other entry changes),
records an attempted-but-unsent notification, the cooldown check would
permit again at once on the unchanged store, and the cycle continues over
the remaining URLs from that unchanged store. -/
theorem delivery_failure_no_record (policy : AlertPolicy) (webhook : String)
    (s : AlertStore) (u : String) (e : Event) (rest : List (String × Event))
    (halert : (classifyOutcome e.probe e.latency policy.latencyThreshold).alertNeeded = true)
    (hwh : webhook ≠ "") (hcan : canSendAlert s u policy.cooldown e.now = true)
    (hfail : e.deliveryOK = false) :
    (stepURL policy webhook s u e).store = s ∧
      (stepURL policy webhook s u e).attempted = true ∧
      (stepURL policy webhook s u e).sent = false ∧
      canSendAlert (stepURL policy webhook s u e).store u policy.cooldown e.now = true ∧
      monitorOnce policy webhook s ((u, e) :: rest) =
        ((monitorOnce policy webhook s rest).1,
          false :: (monitorOnce policy webhook s rest).2) := by
  have hstep := stepURL_sendFail policy webhook s u e halert hwh hcan hfail
  refine ⟨by rw [hstep], by rw [hstep], by rw [hstep], by rw [hstep]; exact hcan, ?_⟩
  simp [monitorOnce, hstep]

/-- Witness for C5: a failed delivery for url "u" at a 500 response leaves
the empty store empty and the cycle goes on to probe url "v". -/
theorem delivery_failure_no_record_witness :
    (stepURL ⟨60, 0⟩ "hook" [] "u" ⟨5, ProbeResult.response 500, 1, false⟩).store = [] ∧
      (stepURL ⟨60, 0⟩ "hook" [] "u" ⟨5, ProbeResult.response 500, 1, false⟩).attempted = true ∧
      (stepURL ⟨60, 0⟩ "hook" [] "u" ⟨5, ProbeResult.response 500, 1, false⟩).sent = false ∧
      canSendAlert (stepURL ⟨60, 0⟩ "hook" [] "u"
        ⟨5, ProbeResult.response 500, 1, false⟩).store "u" 60 5 = true ∧
      monitorOnce ⟨60, 0⟩ "hook" []
          [("u", ⟨5, ProbeResult.response 500, 1, false⟩),
           ("v", ⟨6, ProbeResult.response 200, 1, true⟩)] =
        ((monitorOnce ⟨60, 0⟩ "hook" []
            [("v", ⟨6, ProbeResult.response 200, 1, true⟩)]).1,
          false :: (monitorOnce ⟨60, 0⟩ "hook" []
            [("v", ⟨6, ProbeResult.response 200, 1, true⟩)]).2) :=
  delivery_failure_no_record ⟨60, 0⟩ "hook" [] "u"
    ⟨5, ProbeResult.response 500, 1, false⟩
    [("v", ⟨6, ProbeResult.response 200, 1, true⟩)]
    (by decide) (by decide) (by decide) (by decide)

/-- Claim C6: with cooldown 0 the cooldown check always permits, so every
alert-worthy observation produces a notification attempt (given a
configured webhook, without which `monitorOnce` never calls the notifier
at all): nothing is ever suppressed by the cooldown check. -/
theorem cooldown_zero_no_suppression (policy : AlertPolicy) (webhook : String)
    (s : AlertStore) (u : String) (e : Event)
    (hC : policy.cooldown = 0) (hwh : webhook ≠ "")
    (halert : (classifyOutcome e.probe e.latency policy.latencyThreshold).alertNeeded = true) :
    canSendAlert s u policy.cooldown e.now = true ∧
      (stepURL policy webhook s u e).attempted = true := by
  have hcan : canSendAlert s u policy.cooldown e.now = true := by
    unfold canSendAlert
    simp [hC]
  refine ⟨hcan, ?_⟩
  cases hd : e.deliveryOK
  · rw [stepURL_sendFail policy webhook s u e halert hwh hcan hd]
  · rw [stepURL_sendOK policy webhook s u e halert hwh hcan hd]

/-- Witness for C6: cooldown 0, a store already holding a fresh alert
record for "u", and an immediate second error: the attempt still happens. -/
theorem cooldown_zero_no_suppression_witness :
    canSendAlert [("u", 100)] "u" (0 : Int) 100 = true ∧
      (stepURL ⟨0, 0⟩ "hook" [("u", 100)] "u"
        ⟨100, ProbeResult.response 503, 1, true⟩).attempted = true :=
  cooldown_zero_no_suppression ⟨0, 0⟩ "hook" [("u", 100)] "u"
    ⟨100, ProbeResult.response 503, 1, true⟩ (by decide) (by decide) (by decide)

/-- Claim C8: one `lastAlertAt` per URL governs both alert-worthy statuses:
a successfully sent notification (of either status) leaves `some e1.now`
keyed by the URL alone, and any second alert-worthy observation of that
URL — of the same or the other status — inside the cooldown window is not
even attempted. -/
theorem shared_cooldown_bucket (policy : AlertPolicy) (webhook : String)
    (s : AlertStore) (u : String) (e1 e2 : Event)
    (h1 : (classifyOutcome e1.probe e1.latency policy.latencyThreshold).alertNeeded = true)
    (h2 : (classifyOutcome e2.probe e2.latency policy.latencyThreshold).alertNeeded = true)
    (hsent : (stepURL policy webhook s u e1).sent = true)
    (hT : e1.now ≠ 0) (hC : 0 < policy.cooldown)
    (hwin : e2.now - e1.now < policy.cooldown) :
    lookupAlert (stepURL policy webhook s u e1).store u = some e1.now ∧
      (stepURL policy webhook ((stepURL policy webhook s u e1).store) u e2).attempted
        = false := by
  have hstore : (stepURL policy webhook s u e1).store = recordAlert s u e1.now := by
    by_cases hb : webhook ≠ "" ∧ canSendAlert s u policy.cooldown e1.now = true
    · cases hd : e1.deliveryOK
      · rw [stepURL_sendFail policy webhook s u e1 h1 hb.1 hb.2 hd] at hsent
        exact absurd hsent (by simp)
      · rw [stepURL_sendOK policy webhook s u e1 h1 hb.1 hb.2 hd]
    · rw [stepURL_blocked policy webhook s u e1 h1 hb] at hsent
      exact absurd hsent (by simp)
  have hlook : lookupAlert (stepURL policy webhook s u e1).store u = some e1.now := by
    rw [hstore]
    exact lookupAlert_recordAlert_self s u e1.now
  have hcan2 : canSendAlert (stepURL policy webhook s u e1).store u
      policy.cooldown e2.now = false :=
    canSendAlert_false_in_window _ u policy.cooldown e2.now e1.now hlook hT hC hwin
  refine ⟨hlook, ?_⟩
  rw [stepURL_blocked policy webhook _ u e2 h2 (by simp [hcan2])]

/-- Witness for C8, crossing the two alert-worthy statuses: a sent Error
notification (HTTP 500 at instant 100) suppresses a Slow observation
(HTTP 200 at 800 against threshold 500) of the same URL at instant 130
under cooldown 60. -/
theorem shared_cooldown_bucket_witness :
    lookupAlert (stepURL ⟨60, 500⟩ "hook" [] "u"
        ⟨100, ProbeResult.response 500, 5, true⟩).store "u" = some 100 ∧
      (stepURL ⟨60, 500⟩ "hook"
        ((stepURL ⟨60, 500⟩ "hook" [] "u"
          ⟨100, ProbeResult.response 500, 5, true⟩).store) "u"
        ⟨130, ProbeResult.response 200, 800, true⟩).attempted = false :=
  shared_cooldown_bucket ⟨60, 500⟩ "hook" [] "u"
    ⟨100, ProbeResult.response 500, 5, true⟩
    ⟨130, ProbeResult.response 200, 800, true⟩
    (by decide) (by decide) (by decide) (by decide) (by decide) (by decide)

/-- Claim C9: startup is fatal exactly on the empty URL list — before any
cycle runs — while every runtime outcome (probe failures, bad codes,
failed deliveries) is plain data to the cycle: `monitorOnce` always
processes every configured URL and returns, never terminating early. -/
theorem empty_urls_fatal :
    startupFatal [] = true ∧
      (∀ (u : String) (us : List String), startupFatal (u :: us) = false) ∧
      (∀ (policy : AlertPolicy) (webhook : String) (s : AlertStore)
        (probes : List (String × Event)),
        (monitorOnce policy webhook s probes).2.length = probes.length) := by
  refine ⟨rfl, fun u us => rfl, fun policy webhook s probes => ?_⟩
  induction probes generalizing s with
  | nil => rfl
  | cons p rest ih =>
    obtain ⟨u, e⟩ := p
    simp [monitorOnce, ih]
